import Mathlib

/-!
Verification development for the ai-cv-optimizer repository.

The definitions below are shallow embeddings of the TypeScript source:
 - the retry engine `retryRequest` and the classifier `isRetryableError`
   (src/lib/apiUtils.ts),
 - the client optimization path `handleOptimize` (src/pages/Index.tsx),
 - the edge-function response normalizer and persistence row
   (supabase/functions/optimize-cv/index.ts),
 - the PDF and DOCX codecs (src/lib/fileGenerator.ts),
 - the file text extractor (src/lib/fileParser.ts).

JavaScript strings are modelled as Lean `String`, machine numbers as `Nat`,
`Int` or `ℚ` (jsPDF coordinates are decimal fractions, represented exactly),
absent values as `Option`, and thrown exceptions as `Except`.
-/

/-! ## String helpers (semantics of the JS string primitives used by the code) -/

def wsChar (c : Char) : Bool :=
  c == ' ' || c == '\t' || c == '\n' || c == '\r'

def skipWs : List Char → List Char
  | [] => []
  | c :: cs => if wsChar c then skipWs cs else c :: cs

/-- Trim leading and trailing whitespace, the behaviour of `String.prototype.trim`
and of the greedy whitespace groups in the extraction regex. -/
def trimChars (cs : List Char) : List Char :=
  ((skipWs ((skipWs cs).reverse))).reverse

def strTrim (s : String) : String := String.mk (trimChars s.data)

def lowerStr (s : String) : String := String.mk (s.data.map Char.toLower)

/-- `hay.includes(pat)` on JS strings. -/
def subOccurs (pat : List Char) : List Char → Bool
  | [] => pat.isEmpty
  | c :: tl => pat.isPrefixOf (c :: tl) || subOccurs pat tl

def strIncludes (hay pat : String) : Bool := subOccurs pat.data hay.data

def strEndsWith (s suff : String) : Bool := List.isSuffixOf suff.data s.data

/-- Index of the first occurrence of `pat` in the list, if any. -/
def findSubIdx (pat : List Char) : List Char → Option Nat
  | [] => if pat.isEmpty then some 0 else none
  | c :: tl =>
    if pat.isPrefixOf (c :: tl) then some 0
    else (findSubIdx pat tl).map (· + 1)

def backtickChar : Char := Char.ofNat 96
def obraceChar : Char := Char.ofNat 123
def cbraceChar : Char := Char.ofNat 125

/-! ## JSON values and strict parsing (the semantics of `JSON.parse`) -/

inductive JValue where
  | null : JValue
  | bool (b : Bool) : JValue
  | num (q : ℚ) : JValue
  | str (s : String) : JValue
  | arr (xs : List JValue) : JValue
  | obj (fields : List (String × JValue)) : JValue

def hexVal (c : Char) : Option Nat :=
  if '0' ≤ c ∧ c ≤ '9' then some (c.toNat - 48)
  else if 'a' ≤ c ∧ c ≤ 'f' then some (c.toNat - 87)
  else if 'A' ≤ c ∧ c ≤ 'F' then some (c.toNat - 55)
  else none

/-- Parse the body of a JSON string literal (after the opening quote),
returning the decoded characters and the remainder after the closing quote. -/
def parseStringChars : List Char → Option (List Char × List Char)
  | [] => none
  | c :: rest =>
    if c = '\"' then some ([], rest)
    else if c = '\\' then
      match rest with
      | [] => none
      | e :: rest2 =>
        if e = '\"' ∨ e = '\\' ∨ e = '/' then
          (parseStringChars rest2).map (fun p => (e :: p.1, p.2))
        else if e = 'b' then
          (parseStringChars rest2).map (fun p => (Char.ofNat 8 :: p.1, p.2))
        else if e = 'f' then
          (parseStringChars rest2).map (fun p => (Char.ofNat 12 :: p.1, p.2))
        else if e = 'n' then
          (parseStringChars rest2).map (fun p => ('\n' :: p.1, p.2))
        else if e = 'r' then
          (parseStringChars rest2).map (fun p => ('\r' :: p.1, p.2))
        else if e = 't' then
          (parseStringChars rest2).map (fun p => ('\t' :: p.1, p.2))
        else if e = 'u' then
          match rest2 with
          | h1 :: h2 :: h3 :: h4 :: rest3 =>
            match hexVal h1, hexVal h2, hexVal h3, hexVal h4 with
            | some a, some b, some c3, some d4 =>
              (parseStringChars rest3).map
                (fun p => (Char.ofNat (((a * 16 + b) * 16 + c3) * 16 + d4) :: p.1, p.2))
            | _, _, _, _ => none
          | _ => none
        else none
    else if c.toNat < 32 then none
    else (parseStringChars rest).map (fun p => (c :: p.1, p.2))

def natOfDigits (ds : List Char) : Nat :=
  ds.foldl (fun a c => a * 10 + (c.toNat - 48)) 0

def splitDigits : List Char → List Char × List Char
  | [] => ([], [])
  | c :: cs =>
    if c.isDigit then
      let p := splitDigits cs
      (c :: p.1, p.2)
    else ([], c :: cs)

def parseFracPart : List Char → Option (List Char × List Char)
  | '.' :: rr =>
    match splitDigits rr with
    | ([], _) => none
    | (fs, r) => some (fs, r)
  | cs => some ([], cs)

def parseExpPart : List Char → Option (Int × List Char)
  | [] => some (0, [])
  | c :: rr =>
    if c = 'e' ∨ c = 'E' then
      let sp : Int × List Char :=
        match rr with
        | '+' :: r => (1, r)
        | '-' :: r => (-1, r)
        | _ => (1, rr)
      match splitDigits sp.2 with
      | ([], _) => none
      | (ds, r) => some (sp.1 * (natOfDigits ds : Int), r)
    else some (0, c :: rr)

def qOfParts (neg : Bool) (ints fracs : List Char) (ex : Int) : ℚ :=
  let m : ℚ := (natOfDigits (ints ++ fracs) : ℚ)
  let q := m * (10 : ℚ) ^ (ex - (fracs.length : Int))
  if neg then -q else q

/-- Parse a JSON number (strict grammar: no leading zeros, digits required). -/
def parseNumber (cs : List Char) : Option (ℚ × List Char) :=
  let sp : Bool × List Char :=
    match cs with
    | '-' :: r => (true, r)
    | _ => (false, cs)
  match splitDigits sp.2 with
  | ([], _) => none
  | (ints, r1) =>
    if ints.head? = some '0' ∧ 1 < ints.length then none
    else
      match parseFracPart r1 with
      | none => none
      | some (fracs, r2) =>
        match parseExpPart r2 with
        | none => none
        | some (ex, r3) => some (qOfParts sp.1 ints fracs ex, r3)

mutual

def parseVal : Nat → List Char → Option (JValue × List Char)
  | 0, _ => none
  | fuel + 1, cs0 =>
    let cs := skipWs cs0
    if ("null".data).isPrefixOf cs then some (JValue.null, cs.drop 4)
    else if ("true".data).isPrefixOf cs then some (JValue.bool true, cs.drop 4)
    else if ("false".data).isPrefixOf cs then some (JValue.bool false, cs.drop 5)
    else
      match cs with
      | [] => none
      | c :: rest =>
        if c = '\"' then
          match parseStringChars rest with
          | some (chars, r) => some (JValue.str (String.mk chars), r)
          | none => none
        else if c = '[' then
          match skipWs rest with
          | ']' :: r2 => some (JValue.arr [], r2)
          | r1 =>
            match parseArrItems fuel r1 with
            | some (vs, r2) => some (JValue.arr vs, r2)
            | none => none
        else if c = obraceChar then
          match skipWs rest with
          | c2 :: r2 =>
            if c2 = cbraceChar then some (JValue.obj [], r2)
            else
              match parseObjItems fuel (c2 :: r2) with
              | some (fs, r3) => some (JValue.obj fs, r3)
              | none => none
          | [] => none
        else
          match parseNumber cs with
          | some (q, r) => some (JValue.num q, r)
          | none => none

def parseArrItems : Nat → List Char → Option (List JValue × List Char)
  | 0, _ => none
  | fuel + 1, cs =>
    match parseVal fuel cs with
    | none => none
    | some (v, r) =>
      match skipWs r with
      | ',' :: r2 =>
        match parseArrItems fuel r2 with
        | some (vs, r3) => some (v :: vs, r3)
        | none => none
      | ']' :: r2 => some ([v], r2)
      | _ => none

def parseObjItems : Nat → List Char → Option (List (String × JValue) × List Char)
  | 0, _ => none
  | fuel + 1, cs =>
    match skipWs cs with
    | [] => none
    | c :: r =>
      if c = '\"' then
        match parseStringChars r with
        | none => none
        | some (key, r1) =>
          match skipWs r1 with
          | ':' :: r2 =>
            match parseVal fuel r2 with
            | none => none
            | some (v, r3) =>
              match skipWs r3 with
              | [] => none
              | c2 :: r4 =>
                if c2 = ',' then
                  match parseObjItems fuel r4 with
                  | some (fs, r5) => some ((String.mk key, v) :: fs, r5)
                  | none => none
                else if c2 = cbraceChar then some ([(String.mk key, v)], r4)
                else none
          | _ => none
      else none

end

/-- `JSON.parse`: parse one value and require only whitespace afterwards. -/
def jsonParse (s : String) : Option JValue :=
  match parseVal (2 * s.length + 2) s.data with
  | some (v, rest) => if (skipWs rest).isEmpty then some v else none
  | none => none

/-! ## Response normalizer (edge function, optimize-cv index.ts lines 292-302)

The source extracts the first fenced block with the regex
match(triple-backtick (json)? ws (lazy any) ws triple-backtick), falls back to
the whole text, and runs `JSON.parse` on the candidate. -/

/-- Interior of the first triple-backtick fenced block (optionally tagged
`json`), trimmed, or `none` when the regex does not match. -/
def fencedInterior (s : String) : Option String :=
  let cs := s.data
  let fence := [backtickChar, backtickChar, backtickChar]
  match findSubIdx fence cs with
  | none => none
  | some i =>
    let afterOpen := cs.drop (i + 3)
    let afterTag :=
      if ("json".data).isPrefixOf afterOpen then afterOpen.drop 4 else afterOpen
    match findSubIdx fence afterTag with
    | none => none
    | some j => some (String.mk (trimChars (afterTag.take j)))

/-- `jsonMatch ? jsonMatch[1] : optimizedContent` -/
def extractCandidate (s : String) : String :=
  match fencedInterior s with
  | some c => c
  | none => s

/-- The parse step of the edge function: strict JSON parse of the candidate;
failure raises "Failed to parse AI response". -/
def parseAIResponse (s : String) : Except String JValue :=
  match jsonParse (extractCandidate s) with
  | some v => Except.ok v
  | none => Except.error "Failed to parse AI response"

/-! ## Persistence of the optimization (edge function lines 338-357) -/

/-- Lookup of a field in a `JSON.parse` object: a duplicated key keeps its
last occurrence. -/
def lookupLastField (key : String) : List (String × JValue) → Option JValue
  | [] => none
  | (k1, v1) :: rest =>
    match lookupLastField key rest with
    | some r => some r
    | none => if k1 == key then some v1 else none

/-- JS property lookup on an object built by `JSON.parse`. Non-objects have
no `matchScore` property. -/
def jGet (v : JValue) (key : String) : Option JValue :=
  match v with
  | JValue.obj fs => lookupLastField key fs
  | _ => none

/-- JS truthiness of a possibly-absent JSON value. -/
def jsTruthy : Option JValue → Bool
  | none => false
  | some JValue.null => false
  | some (JValue.bool b) => b
  | some (JValue.num q) => decide (q ≠ 0)
  | some (JValue.str s) => decide (s ≠ "")
  | some (JValue.arr _) => true
  | some (JValue.obj _) => true

/-- `match_score: parsedCV.matchScore || null` -/
def storedMatchScore (parsedCV : JValue) : JValue :=
  match jGet parsedCV "matchScore" with
  | some v => if jsTruthy (some v) then v else JValue.null
  | none => JValue.null

structure OptimizationRow where
  user_id : String
  job_description : String
  job_role : String
  optimized_content : JValue
  match_score : JValue
  template_name : String

/-- The `cv_optimizations` insert performed for an authenticated user. -/
def insertRow (userId jobDescription jobRole : String) (parsedCV : JValue) :
    OptimizationRow :=
  { user_id := userId
    job_description := jobDescription
    job_role := jobRole
    optimized_content := parsedCV
    match_score := storedMatchScore parsedCV
    template_name := "modern" }

/-! ## Error classifier (src/lib/apiUtils.ts, `isRetryableError`) -/

/-- A JS error value as inspected by the classifier: `name`, `message`
(the empty string models an absent or empty message, both falsy),
`status`/`statusCode`, and `stringRepr`, the value of `String(error)`
used when the message is falsy. -/
structure JSError where
  name : String
  message : String
  status : Option Nat
  statusCode : Option Nat
  stringRepr : String
deriving DecidableEq

/-- JS truthiness of an optional numeric field (`0` is falsy). -/
def optTruthy : Option Nat → Option Nat
  | some 0 => none
  | some (n + 1) => some (n + 1)
  | none => none

/-- `error.status || error.statusCode`, as a truthy value or nothing. -/
def truthyStatus (e : JSError) : Option Nat :=
  match optTruthy e.status with
  | some s => some s
  | none => optTruthy e.statusCode

/-- `String(error.message || error)` -/
def jsMessageText (e : JSError) : String :=
  if e.message == "" then e.stringRepr else e.message

def retryableMessages : List String :=
  ["timeout", "network", "connection", "rate limit", "server error",
   "service unavailable", "temporarily unavailable"]

def isRetryableError : Option JSError → Bool
  | none => false
  | some e =>
    if e.name == "NetworkError" || e.name == "TypeError" then true
    else
      match truthyStatus e with
      | some s => s == 429 || s == 408 || (decide (500 ≤ s) && decide (s < 600))
      | none =>
        let msg := lowerStr (jsMessageText e)
        retryableMessages.any (fun m => strIncludes msg m)

/-- Spec vocabulary: the error kind indicates a network-level failure. -/
def kindNetworkB (e : JSError) : Bool :=
  e.name == "NetworkError" || e.name == "TypeError"

/-- Spec vocabulary: the lowercased message contains a retryable substring. -/
def vocabMatchB (e : JSError) : Bool :=
  retryableMessages.any (fun m => strIncludes (lowerStr (jsMessageText e)) m)

/-! ## Retry engine (src/lib/apiUtils.ts `retryRequest`; the edge function has
an identical copy without the observer).

The engine is modelled as a trace transformer: the operation is a function
from the attempt number (1-based) to its outcome, and the run records the
observable events in order: each invocation, each observer notification,
each backoff wait. -/

inductive REvent (E : Type) where
  | call (attempt : Nat)
  | obs (attempt : Nat) (err : E)
  | wait (ms : Nat)
deriving DecidableEq

structure RetryTrace (E T : Type) where
  result : Except (Option E) T
  events : List (REvent E)

/-- One pass of the `for (attempt = 1; attempt <= maxRetries; attempt++)` loop:
`r` is the number of attempts remaining, `a` the current attempt number,
`le` the last stored error (`none` models the initial `null`). -/
def retryGo {E T : Type} (fn : Nat → Except E T) (d : Nat) (w : Bool) :
    Nat → Nat → Option E → RetryTrace E T
  | 0, _, le => { result := Except.error le, events := [] }
  | r + 1, a, _ =>
    match fn a with
    | Except.ok v => { result := Except.ok v, events := [REvent.call a] }
    | Except.error e =>
      match r with
      | 0 => { result := Except.error (some e), events := [REvent.call a] }
      | r' + 1 =>
        let rest := retryGo fn d w (r' + 1) (a + 1) (some e)
        { result := rest.result
          events := REvent.call a ::
            ((if w then [REvent.obs a e] else []) ++
              REvent.wait (d * 2 ^ (a - 1)) :: rest.events) }

/-- `retryRequest(fn, maxRetries, delay, onRetry?)`; `w` records whether an
`onRetry` observer was supplied. -/
def retryRequest {E T : Type} (fn : Nat → Except E T)
    (maxRetries delay : Nat) (w : Bool) : RetryTrace E T :=
  retryGo fn delay w maxRetries 1 none

def isCallEv {E : Type} : REvent E → Bool
  | REvent.call _ => true
  | _ => false

def countCalls {E : Type} (evs : List (REvent E)) : Nat :=
  evs.countP isCallEv

def waitOfEv {E : Type} : REvent E → Option Nat
  | REvent.wait m => some m
  | _ => none

def waitsOf {E : Type} (evs : List (REvent E)) : List Nat :=
  evs.filterMap waitOfEv

/-! ## Client optimization path (src/pages/Index.tsx `handleOptimize`) -/

/-- The retryable wrapper error built in `handleOptimize`:
`new Error(invokeResult.error.message || "Optimization failed")` with the
status copied onto it. -/
def wrapRetryError (e : JSError) : JSError :=
  { name := "Error"
    message := if e.message == "" then "Optimization failed" else e.message
    status := e.status
    statusCode := none
    stringRepr := "" }

/-- The operation passed to `retryRequest` by `handleOptimize`: on an invoke
error it throws the raw error when the classifier says non-retryable,
otherwise the wrapper error; either way the throw lands in the retry loop. -/
def clientOp (invoke : Nat → Except JSError JValue) (k : Nat) :
    Except JSError JValue :=
  match invoke k with
  | Except.ok d => Except.ok d
  | Except.error e =>
    if isRetryableError (some e) then Except.error (wrapRetryError e)
    else Except.error e

/-- The client optimization call: `retryRequest(op, 3, 1000, onRetry)`. -/
def handleOptimizeCall (invoke : Nat → Except JSError JValue) :
    RetryTrace JSError JValue :=
  retryRequest (clientOp invoke) 3 1000 true

/-! ## File text extractor (src/lib/fileParser.ts)

The underlying decoders (pdfjs, mammoth, `file.text()`) are external
collaborators; a `File` carries the outcome each decoder would produce for
it: either a decoded value or a thrown JS value. -/

/-- A thrown JS value as seen by a `catch` block: an `Error` with its
`message`, or any other value. -/
inductive JSThrown where
  | err (message : String)
  | other
deriving DecidableEq

/-- `error instanceof Error ? error.message : <default>` -/
def thrownMsg (t : JSThrown) (dflt : String) : String :=
  match t with
  | JSThrown.err m => m
  | JSThrown.other => dflt

structure File where
  type : String
  name : String
  /-- outcome of pdfjs decoding: the text items of each page, or a throw -/
  pdfPages : Except JSThrown (List (List String))
  /-- outcome of mammoth.extractRawText: the raw text value, or a throw -/
  docxRaw : Except JSThrown String
  /-- outcome of `file.text()` -/
  txtRaw : Except JSThrown String

structure ParseResult where
  text : String
  error : Option String
deriving DecidableEq

def extractTextFromPDF (f : File) : ParseResult :=
  match f.pdfPages with
  | Except.ok pages =>
    { text := strTrim (String.join (pages.map
        (fun items => String.intercalate " " items ++ "\n")))
      error := none }
  | Except.error t =>
    { text := "", error := some (thrownMsg t "Failed to parse PDF") }

def extractTextFromDOCX (f : File) : ParseResult :=
  match f.docxRaw with
  | Except.ok v => { text := strTrim v, error := none }
  | Except.error t =>
    { text := "", error := some (thrownMsg t "Failed to parse DOCX") }

def extractTextFromTXT (f : File) : ParseResult :=
  match f.txtRaw with
  | Except.ok v => { text := strTrim v, error := none }
  | Except.error t =>
    { text := "", error := some (thrownMsg t "Failed to parse TXT") }

def pdfCond (f : File) : Bool :=
  f.type == "application/pdf" || strEndsWith (lowerStr f.name) ".pdf"

def docxCond (f : File) : Bool :=
  f.type == "application/vnd.openxmlformats-officedocument.wordprocessingml.document"
    || f.type == "application/msword"
    || strEndsWith (lowerStr f.name) ".docx"
    || strEndsWith (lowerStr f.name) ".doc"

def txtCond (f : File) : Bool :=
  f.type == "text/plain" || strEndsWith (lowerStr f.name) ".txt"

def extractTextFromFile (f : File) : ParseResult :=
  if pdfCond f then extractTextFromPDF f
  else if docxCond f then extractTextFromDOCX f
  else if txtCond f then extractTextFromTXT f
  else { text := "", error := some "Unsupported file type. Please upload PDF, DOCX, or TXT." }

/-! ## CV data model (src/lib/fileGenerator.ts `CVData`)

The generators guard every section with JS truthiness, so each field is
modelled as possibly absent. -/

structure CVHeader where
  name : String
  contact : String
deriving DecidableEq

structure CVExperience where
  title : String
  company : String
  period : String
  highlights : List String
deriving DecidableEq

structure CVEducation where
  degree : String
  institution : String
  year : String
deriving DecidableEq

structure CVData where
  header : Option CVHeader
  summary : Option String
  skills : Option (List String)
  experience : Option (List CVExperience)
  education : Option (List CVEducation)
  matchScore : Option Int
deriving DecidableEq

/-! ## PDF codec (src/lib/fileGenerator.ts `generatePDF`)

jsPDF with the default configuration: unit mm, A4 portrait, whose exact page
height is 841.89 pt x 25.4/72 = 297 + 1/12000 mm. Every quantity the layout
code adds to the vertical cursor (the 20 mm margin, the `fontSize * 0.4` line
advance for the integer font sizes used, and the fixed +5/+10 steps) is an
integer multiple of 1/12000 mm, so the cursor arithmetic is represented
exactly in integer layout units of 1/12000 mm (`lu` per mm below).
`splitTextToSize` depends on the font metrics of the external library, so the
codec is parametrised by the wrapping function; the layout logic does not
depend on it. The wrap widths handed to it are kept as exact rationals. -/

abbrev Split := String → ℚ → List String

/-- Layout units per mm. -/
def lu : Nat := 12000

/-- A4 page height: 297 + 1/12000 mm. -/
def pageHeightLU : Nat := 297 * lu + 1

/-- The 20 mm margin. -/
def pdfMarginLU : Nat := 20 * lu

/-- `fontSize * 0.4` mm in layout units (exact: (2/5) * 12000 = 4800). -/
def lineHeightLU (fs : Nat) : Nat := fs * ((2 * lu) / 5)

/-- A4 page width in mm: 595.28 pt x 25.4/72. -/
def pageWidth : ℚ := 210 + 7 / 4500

/-- `pageWidth - 2 * margin`, the wrap width passed to `splitTextToSize`. -/
def pdfMaxWidth : ℚ := pageWidth - 2 * 20

structure PDFDraw where
  text : String
  x : Nat
  y : Nat
  fontSize : Nat
  page : Nat
deriving DecidableEq

structure PDFCall where
  text : String
  fontSize : Nat
  bold : Bool
deriving DecidableEq

structure PDFState where
  y : Nat
  page : Nat
  draws : List PDFDraw
  calls : List PDFCall

/-- The page-break check performed by `addText` before emitting a line:
`if (yPosition > pageHeight - 30) { doc.addPage(); yPosition = margin; }`. -/
def pageBreak (st : PDFState) : PDFState :=
  if pageHeightLU - 30 * lu < st.y then
    { st with page := st.page + 1, y := pdfMarginLU }
  else st

/-- Emission of one wrapped line inside `addText`: page-break check, then
`doc.text(line, margin, y)`, then `y += fontSize * 0.4`. -/
def emitLine (fs : Nat) (st : PDFState) (line : String) : PDFState :=
  let st := pageBreak st
  { st with
    draws := st.draws ++ [{ text := line, x := pdfMarginLU, y := st.y, fontSize := fs, page := st.page }]
    y := st.y + lineHeightLU fs }

/-- The `addText` helper: wrap, emit each line with the page-break check,
then `y += 5`. Also records the invocation itself. -/
def addText (split : Split) (t : String) (fs : Nat) (bold : Bool)
    (st : PDFState) : PDFState :=
  let st := { st with calls := st.calls ++ [{ text := t, fontSize := fs, bold := bold }] }
  let st := (split t pdfMaxWidth).foldl (emitLine fs) st
  { st with y := st.y + 5 * lu }

/-- One wrapped line of a highlight: `doc.text(line, margin + 10, y); y += 5`
with NO page-break check (source lines 86-89). -/
def emitHighlightLine (st : PDFState) (line : String) : PDFState :=
  { st with
    draws := st.draws ++ [{ text := line, x := pdfMarginLU + 10 * lu, y := st.y, fontSize := 10, page := st.page }]
    y := st.y + 5 * lu }

/-- One highlight: bullet glyph at the current cursor, then the wrapped
lines (source lines 82-90; bypasses `addText`). -/
def addHighlight (split : Split) (h : String) (st : PDFState) : PDFState :=
  let st := { st with
    draws := st.draws ++ [{ text := "• ", x := pdfMarginLU + 5 * lu, y := st.y, fontSize := 10, page := st.page }] }
  (split h (pdfMaxWidth - 10)).foldl emitHighlightLine st

def addExperience (split : Split) (st : PDFState) (e : CVExperience) : PDFState :=
  let st := addText split (e.title ++ " | " ++ e.company) 12 true st
  let st := addText split e.period 10 false st
  let st := e.highlights.foldl (fun st h => addHighlight split h st) st
  { st with y := st.y + 5 * lu }

def addEducation (split : Split) (st : PDFState) (e : CVEducation) : PDFState :=
  let st := addText split e.degree 12 true st
  let st := addText split (e.institution ++ " • " ++ e.year) 10 false st
  { st with y := st.y + 5 * lu }

def pdfHeaderSec (split : Split) (cv : CVData) (st : PDFState) : PDFState :=
  match cv.header with
  | some h =>
    let st := addText split h.name 20 true st
    let st := addText split h.contact 11 false st
    { st with y := st.y + 10 * lu }
  | none => st

def pdfSummarySec (split : Split) (cv : CVData) (st : PDFState) : PDFState :=
  match cv.summary with
  | some s =>
    if s = "" then st
    else
      let st := addText split "PROFESSIONAL SUMMARY" 14 true st
      let st := addText split s 11 false st
      { st with y := st.y + 5 * lu }
  | none => st

def pdfSkillsSec (split : Split) (cv : CVData) (st : PDFState) : PDFState :=
  match cv.skills with
  | some sk =>
    if 0 < sk.length then
      let st := addText split "KEY SKILLS" 14 true st
      let st := addText split (String.intercalate " • " sk) 11 false st
      { st with y := st.y + 5 * lu }
    else st
  | none => st

def pdfExperienceSec (split : Split) (cv : CVData) (st : PDFState) : PDFState :=
  match cv.experience with
  | some exps =>
    if 0 < exps.length then
      let st := addText split "PROFESSIONAL EXPERIENCE" 14 true st
      exps.foldl (addExperience split) st
    else st
  | none => st

def pdfEducationSec (split : Split) (cv : CVData) (st : PDFState) : PDFState :=
  match cv.education with
  | some edus =>
    if 0 < edus.length then
      let st := addText split "EDUCATION" 14 true st
      edus.foldl (addEducation split) st
    else st
  | none => st

def generatePDF (split : Split) (cv : CVData) : PDFState :=
  pdfEducationSec split cv
    (pdfExperienceSec split cv
      (pdfSkillsSec split cv
        (pdfSummarySec split cv
          (pdfHeaderSec split cv
            { y := pdfMarginLU, page := 1, draws := [], calls := [] }))))

/-! ## DOCX codec (src/lib/fileGenerator.ts `generateDOCX`) -/

structure DocxRun where
  text : String
  bold : Bool
  italics : Bool
  size : Option Nat
deriving DecidableEq

structure DocxParagraph where
  runs : List DocxRun
  heading1 : Bool
  centered : Bool
  indentLeft : Option Nat
  spacingAfter : Option Nat
deriving DecidableEq

/-- A HEADING_1 section-title paragraph (bold run, size 28, spacing 200). -/
def headingPar (t : String) : DocxParagraph :=
  { runs := [{ text := t, bold := true, italics := false, size := some 28 }]
    heading1 := true, centered := false, indentLeft := none, spacingAfter := some 200 }

def docxHeaderPars : Option CVHeader → List DocxParagraph
  | some h =>
    [ { runs := [{ text := h.name, bold := true, italics := false, size := some 32 }]
        heading1 := false, centered := true, indentLeft := none, spacingAfter := some 200 },
      { runs := [{ text := h.contact, bold := false, italics := false, size := some 22 }]
        heading1 := false, centered := true, indentLeft := none, spacingAfter := some 400 } ]
  | none => []

def docxSummaryPars : Option String → List DocxParagraph
  | some s =>
    if s = "" then []
    else
      [ headingPar "PROFESSIONAL SUMMARY",
        { runs := [{ text := s, bold := false, italics := false, size := some 22 }]
          heading1 := false, centered := false, indentLeft := none, spacingAfter := some 400 } ]
  | none => []

def docxSkillsPars : Option (List String) → List DocxParagraph
  | some sk =>
    if 0 < sk.length then
      [ headingPar "KEY SKILLS",
        { runs := [{ text := String.intercalate " • " sk, bold := false, italics := false, size := some 22 }]
          heading1 := false, centered := false, indentLeft := none, spacingAfter := some 400 } ]
    else []
  | none => []

def docxExpPars (e : CVExperience) : List DocxParagraph :=
  { runs := [{ text := e.title ++ " | " ++ e.company, bold := true, italics := false, size := some 24 }]
    heading1 := false, centered := false, indentLeft := none, spacingAfter := some 100 } ::
  { runs := [{ text := e.period, bold := false, italics := true, size := some 20 }]
    heading1 := false, centered := false, indentLeft := none, spacingAfter := some 200 } ::
  (e.highlights.map (fun h =>
    { runs := [{ text := "• ", bold := true, italics := false, size := none },
               { text := h, bold := false, italics := false, size := some 22 }]
      heading1 := false, centered := false, indentLeft := some 400, spacingAfter := some 150 })) ++
  [ { runs := [], heading1 := false, centered := false, indentLeft := none, spacingAfter := some 300 } ]

def docxExperiencePars : Option (List CVExperience) → List DocxParagraph
  | some exps =>
    if 0 < exps.length then
      headingPar "PROFESSIONAL EXPERIENCE" :: (exps.map docxExpPars).flatten
    else []
  | none => []

def docxEduPars (e : CVEducation) : List DocxParagraph :=
  [ { runs := [{ text := e.degree, bold := true, italics := false, size := some 24 }]
      heading1 := false, centered := false, indentLeft := none, spacingAfter := some 100 },
    { runs := [{ text := e.institution ++ " • " ++ e.year, bold := false, italics := false, size := some 20 }]
      heading1 := false, centered := false, indentLeft := none, spacingAfter := some 300 } ]

def docxEducationPars : Option (List CVEducation) → List DocxParagraph
  | some edus =>
    if 0 < edus.length then
      headingPar "EDUCATION" :: (edus.map docxEduPars).flatten
    else []
  | none => []

def generateDOCX (cv : CVData) : List DocxParagraph :=
  docxHeaderPars cv.header ++ docxSummaryPars cv.summary ++
  docxSkillsPars cv.skills ++ docxExperiencePars cv.experience ++
  docxEducationPars cv.education

/-! ## Predicates and concrete inputs used by the claims -/

/-- A well-formed extractor result: either a success without error, or a
failure with empty text and the error field set. -/
def wfResult (r : ParseResult) : Prop :=
  r.error = none ∨ (r.text = "" ∧ r.error ≠ none)

/-- An `addText` invocation that would emit the skills heading. -/
def keySkillsCall (c : PDFCall) : Bool :=
  c.text == "KEY SKILLS" && (c.fontSize == 14) && c.bold

def anyKS (st : PDFState) : Bool := st.calls.any keySkillsCall

/-- A DOCX paragraph that is a "KEY SKILLS" section heading. -/
def ksPar (p : DocxParagraph) : Bool :=
  p.heading1 && p.runs.any (fun r => r.text == "KEY SKILLS")

/-- A wrapping function under which every block fits on one line (the jsPDF
behaviour for text narrower than the wrap width). -/
def splitWhole : Split := fun s _ => [s]

/-- A resume with one experience entry carrying 40 single-line highlights. -/
def cvLongHighlights : CVData :=
  { header := some { name := "John Doe", contact := "john@example.com" }
    summary := none
    skills := none
    experience := some [{ title := "Engineer", company := "Acme", period := "2020",
                          highlights := List.replicate 40 "Shipped a feature" }]
    education := none
    matchScore := none }

/-- A non-retryable failure of the edge-function invoke: status 400, no
network-kind name, no vocabulary word in the message. -/
def e400 : JSError :=
  { name := "FunctionsHttpError"
    message := "Edge Function returned a non-2xx status code"
    status := some 400, statusCode := none, stringRepr := "" }

/-- An invoke that fails with `e400` on every attempt. -/
def invoke400 : Nat → Except JSError JValue := fun _ => Except.error e400

/-- A retryable server failure with a 500 status. -/
def e500ret : JSError :=
  { name := "Error", message := "Gemini API error: 500", status := some 500,
    statusCode := none, stringRepr := "" }

/-- An operation failing on attempts 1 and 2 and succeeding on attempt 3. -/
def fnC6 : Nat → Except JSError String :=
  fun k => if k ≤ 2 then Except.error e500ret else Except.ok "optimized"

/-- A 404-status error whose message contains the vocabulary word
"connection". -/
def eStatusMsg : JSError :=
  { name := "Error", message := "connection timeout", status := some 404,
    statusCode := none, stringRepr := "" }

/-- A 599-status error with no vocabulary word and no network kind. -/
def e599 : JSError :=
  { name := "Error", message := "boom", status := some 599,
    statusCode := none, stringRepr := "" }

/-- A 503-status error. -/
def e503 : JSError :=
  { name := "Error", message := "x", status := some 503,
    statusCode := none, stringRepr := "" }

/-- Model output: a fenced JSON object surrounded by prose. -/
def fencedExample : String :=
  "Here you go:\n```json\n\x7b\"header\":\x7b\"name\":\"Jane Doe\",\"contact\":\"jane@x.io\"\x7d\x7d\n```"

/-- The bare JSON substring of `fencedExample`. -/
def bareExample : String :=
  "\x7b\"header\":\x7b\"name\":\"Jane Doe\",\"contact\":\"jane@x.io\"\x7d\x7d"

/-- Model output that is only prose, with no JSON and no fence. -/
def proseExample : String :=
  "Sorry, I could not optimize this resume. Please try again with more detail."

/-- A PDF upload whose decoder throws an `Error` carrying an empty message. -/
def fEmptyMsg : File :=
  { type := "application/pdf", name := "cv.pdf"
    pdfPages := Except.error (JSThrown.err "")
    docxRaw := Except.ok "", txtRaw := Except.ok "" }

/-- An upload of an unsupported type whose PDF decoder would throw. -/
def fUnsupported : File :=
  { type := "application/zip", name := "cv.zip"
    pdfPages := Except.error (JSThrown.err "bad xref")
    docxRaw := Except.ok "", txtRaw := Except.ok "" }

/-- A parsed record whose matchScore is 0. -/
def cvScore0 : JValue := JValue.obj [("matchScore", JValue.num 0)]

/-- A parsed record whose matchScore is 85. -/
def cvScore85 : JValue := JValue.obj [("matchScore", JValue.num 85)]

/-- A parsed record with no matchScore field. -/
def cvNoScore : JValue := JValue.obj [("header", JValue.null)]

/-- A fully populated resume whose skills list is empty. -/
def cvEmptySkills : CVData :=
  { header := some { name := "A", contact := "B" }
    summary := some "s"
    skills := some []
    experience := some [{ title := "T", company := "C", period := "P", highlights := ["h1"] }]
    education := some [{ degree := "D", institution := "I", year := "Y" }]
    matchScore := some 50 }

/-! ## Theorems -/

set_option maxRecDepth 10000


lemma retryGo_succ_err {E T : Type} (fn : Nat → Except E T) (d : Nat) (w : Bool)
    (r a : Nat) (le : Option E) (e : E) (hfa : fn a = Except.error e) :
    retryGo fn d w (r + 1 + 1) a le =
      { result := (retryGo fn d w (r + 1) (a + 1) (some e)).result
        events := REvent.call a :: ((if w then [REvent.obs a e] else []) ++
          REvent.wait (d * 2 ^ (a - 1)) ::
            (retryGo fn d w (r + 1) (a + 1) (some e)).events) } := by
  conv_lhs => rw [retryGo.eq_def]
  simp only [hfa]

lemma retryGo_one_err {E T : Type} (fn : Nat → Except E T) (d : Nat) (w : Bool)
    (a : Nat) (le : Option E) (e : E) (hfa : fn a = Except.error e) :
    retryGo fn d w 1 a le =
      { result := Except.error (some e), events := [REvent.call a] } := by
  conv_lhs => rw [retryGo.eq_def]
  simp only [hfa]

lemma retryGo_ok {E T : Type} (fn : Nat → Except E T) (d : Nat) (w : Bool)
    (r a : Nat) (le : Option E) (v : T) (hfa : fn a = Except.ok v) :
    retryGo fn d w (r + 1) a le =
      { result := Except.ok v, events := [REvent.call a] } := by
  conv_lhs => rw [retryGo.eq_def]
  simp only [hfa]

lemma retryGo_allFail {E T : Type} (fn : Nat → Except E T) (errs : Nat → E)
    (d : Nat) (w : Bool) (hf : ∀ k, fn k = Except.error (errs k)) :
    ∀ r a le, 1 ≤ r → 1 ≤ a →
      (retryGo fn d w r a le).result = Except.error (some (errs (a + r - 1))) ∧
      countCalls (retryGo fn d w r a le).events = r ∧
      waitsOf (retryGo fn d w r a le).events
        = (List.range (r - 1)).map (fun i => d * 2 ^ (a - 1 + i)) := by
  intro r
  induction r with
  | zero => intro a le h1 _; omega
  | succ r ih =>
    intro a le _ ha
    cases r with
    | zero =>
      rw [retryGo_one_err fn d w a le (errs a) (hf a)]
      have h1 : a + 1 - 1 = a := by omega
      rw [h1]
      refine ⟨rfl, ?_, ?_⟩
      · simp [countCalls, isCallEv, List.countP_cons]
      · simp [waitsOf, waitOfEv, List.filterMap_cons]
    | succ r' =>
      obtain ⟨h1, h2, h3⟩ := ih (a + 1) (some (errs a)) (by omega) (by omega)
      rw [retryGo_succ_err fn d w r' a le (errs a) (hf a)]
      refine ⟨?_, ?_, ?_⟩
      · rw [h1]
        have he : a + 1 + (r' + 1) - 1 = a + (r' + 1 + 1) - 1 := by omega
        rw [he]
      · cases w <;>
          simp [countCalls, isCallEv, List.countP_cons, List.countP_append] at h2 ⊢ <;>
          omega
      · have htail : waitsOf (REvent.call a ::
            ((if w then [REvent.obs a (errs a)] else []) ++
              REvent.wait (d * 2 ^ (a - 1)) ::
                (retryGo fn d w (r' + 1) (a + 1) (some (errs a))).events))
            = d * 2 ^ (a - 1) ::
                waitsOf (retryGo fn d w (r' + 1) (a + 1) (some (errs a))).events := by
          cases w <;>
            simp [waitsOf, waitOfEv, List.filterMap_cons, List.filterMap_append]
        rw [htail, h3]
        simp only [Nat.add_sub_cancel]
        rw [List.range_succ_eq_map, List.map_cons, List.map_map]
        refine List.cons_eq_cons.mpr ⟨rfl, ?_⟩
        apply List.map_congr_left
        intro i _
        show d * 2 ^ (a + 1 - 1 + i) = d * 2 ^ (a - 1 + Nat.succ i)
        have he2 : a + 1 - 1 + i = a - 1 + Nat.succ i := by omega
        rw [he2]

/-- C4: for every maxAttempts n >= 1 and an operation failing on all
attempts, `retryRequest` invokes the operation exactly n times and reports
the error of the n-th attempt. -/
theorem c4_all_attempts_fail {E T : Type} (fn : Nat → Except E T) (errs : Nat → E)
    (n d : Nat) (w : Bool) (hn : 1 ≤ n) (hf : ∀ k, fn k = Except.error (errs k)) :
    (retryRequest fn n d w).result = Except.error (some (errs n)) ∧
    countCalls (retryRequest fn n d w).events = n := by
  obtain ⟨h1, h2, _⟩ := retryGo_allFail fn errs d w hf n 1 none hn (by omega)
  have hn' : 1 + n - 1 = n := by omega
  rw [hn'] at h1
  exact ⟨h1, h2⟩

theorem c4_all_attempts_fail_witness :
    1 ≤ 2 ∧
    ((retryRequest (fun k => (Except.error k : Except Nat Unit)) 2 9 true).result
        = Except.error (some 2) ∧
      countCalls (retryRequest (fun k => (Except.error k : Except Nat Unit)) 2 9 true).events = 2) :=
  ⟨by omega,
   c4_all_attempts_fail (fun k => (Except.error k : Except Nat Unit)) (fun k => k)
     2 9 true (by omega) (fun _ => rfl)⟩

lemma retryRequest_waits {E T : Type} (fn : Nat → Except E T) (errs : Nat → E)
    (n d : Nat) (w : Bool) (hn : 1 ≤ n) (hf : ∀ k, fn k = Except.error (errs k)) :
    waitsOf (retryRequest fn n d w).events
      = (List.range (n - 1)).map (fun i => d * 2 ^ i) := by
  obtain ⟨_, _, h3⟩ := retryGo_allFail fn errs d w hf n 1 none hn (by omega)
  rw [show waitsOf (retryRequest fn n d w).events
        = (List.range (n - 1)).map (fun i => d * 2 ^ (1 - 1 + i)) from h3]
  apply List.map_congr_left
  intro i _
  norm_num

lemma geomSumList (m d : Nat) :
    ((List.range m).map (fun i => d * 2 ^ i)).sum = d * (2 ^ m - 1) := by
  induction m with
  | zero => simp
  | succ m ih =>
    rw [List.range_succ, List.map_append, List.sum_append, ih]
    have h1 : 1 ≤ 2 ^ m := Nat.one_le_two_pow
    have h2 : (2 ^ m - 1) + 2 ^ m = 2 ^ (m + 1) - 1 := by
      rw [pow_succ]; omega
    calc d * (2 ^ m - 1) + ((List.map (fun i => d * 2 ^ i) [m]).sum)
        = d * (2 ^ m - 1) + d * 2 ^ m := by simp
      _ = d * ((2 ^ m - 1) + 2 ^ m) := by rw [Nat.mul_add]
      _ = d * (2 ^ (m + 1) - 1) := by rw [h2]

/-- C5: in a failing run the wait after attempt k is d * 2^(k-1) and the
cumulative wait over n attempts is d * (2^(n-1) - 1). -/
theorem c5_backoff_waits {E T : Type} (fn : Nat → Except E T) (errs : Nat → E)
    (n d k : Nat) (w : Bool) (_hd : 0 < d) (hk : 1 ≤ k) (hkn : k + 1 ≤ n)
    (hf : ∀ j, fn j = Except.error (errs j)) :
    (waitsOf (retryRequest fn n d w).events)[k - 1]? = some (d * 2 ^ (k - 1)) ∧
    (waitsOf (retryRequest fn n d w).events).sum = d * (2 ^ (n - 1) - 1) := by
  have hn : 1 ≤ n := by omega
  rw [retryRequest_waits fn errs n d w hn hf]
  constructor
  · rw [List.getElem?_map, List.getElem?_range (by omega : k - 1 < n - 1)]
    rfl
  · exact geomSumList (n - 1) d

theorem c5_backoff_waits_witness :
    0 < 1000 ∧ 1 ≤ 2 ∧ 2 + 1 ≤ 3 ∧
    ((waitsOf (retryRequest (fun j => (Except.error j : Except Nat Unit)) 3 1000 true).events)[1]?
        = some 2000 ∧
      (waitsOf (retryRequest (fun j => (Except.error j : Except Nat Unit)) 3 1000 true).events).sum
        = 3000) :=
  ⟨by omega, by omega, by omega,
   c5_backoff_waits (fun j => (Except.error j : Except Nat Unit)) (fun j => j)
     3 1000 2 true (by omega) (by omega) (by omega) (fun _ => rfl)⟩

/-- C6: an operation failing on attempts 1 and 2 (500 status) and succeeding
on attempt 3 under a 3-attempt policy resolves with the success value, and
the observer fires exactly twice, with attempt numbers 1 and 2 and the
triggering error, each time before the corresponding backoff wait. -/
theorem c6_two_failures_then_success :
    retryRequest fnC6 3 1000 true =
      { result := Except.ok "optimized"
        events := [REvent.call 1, REvent.obs 1 e500ret, REvent.wait 1000,
                   REvent.call 2, REvent.obs 2 e500ret, REvent.wait 2000,
                   REvent.call 3] } := rfl

/-- C1 (code bug): `e400` is classified non-retryable, yet the client
optimization path still runs all 3 attempts, notifying the observer and
waiting 1000ms and 2000ms between attempts, before reporting the error. -/
theorem c1_nonretryable_error_still_retried :
    isRetryableError (some e400) = false ∧
    handleOptimizeCall invoke400 =
      { result := Except.error (some e400)
        events := [REvent.call 1, REvent.obs 1 e400, REvent.wait 1000,
                   REvent.call 2, REvent.obs 2 e400, REvent.wait 2000,
                   REvent.call 3] } :=
  ⟨rfl, rfl⟩

/-- C2 (code bug): with 40 single-line highlights, highlight lines are drawn
past (page height - 30) while the document stays on page 1: the highlight
loop bypasses the per-line page-break check of `addText`. The draw at
y = 3261600 layout units is 271.8 mm, beyond the 297.0000833 - 30 mm limit. -/
theorem c2_highlight_lines_overflow_page :
    ((generatePDF splitWhole cvLongHighlights).draws.any
        (fun d => decide (pageHeightLU - 30 * lu < d.y))) = true ∧
    ((generatePDF splitWhole cvLongHighlights).draws.all (fun d => d.page == 1)) = true ∧
    (generatePDF splitWhole cvLongHighlights).page = 1 ∧
    ({ text := "Shipped a feature", x := 360000, y := 3261600, fontSize := 10, page := 1 } : PDFDraw)
      ∈ (generatePDF splitWhole cvLongHighlights).draws ∧
    pageHeightLU - 30 * lu < 3261600 := by
  refine ⟨by decide, by decide, rfl, by decide, by decide⟩

/-- C7: the normalizer takes the interior of the first fenced block (or the
whole text when no fence is present) and strictly JSON-parses it: the fenced
example parses to the same record as its bare JSON substring, and pure prose
fails with the parse error. -/
theorem c7_normalizer_extraction :
    extractCandidate fencedExample = bareExample ∧
    parseAIResponse fencedExample = parseAIResponse bareExample ∧
    parseAIResponse bareExample =
      Except.ok (JValue.obj [("header", JValue.obj
        [("name", JValue.str "Jane Doe"), ("contact", JValue.str "jane@x.io")])]) ∧
    extractCandidate proseExample = proseExample ∧
    parseAIResponse proseExample = Except.error "Failed to parse AI response" :=
  ⟨rfl, rfl, rfl, rfl, rfl⟩

/-- C3 counterexample: a 404-status error whose message contains the
vocabulary word "connection" is classified non-retryable (the status branch
returns without consulting the message), and a 599-status error is
classified retryable although 599 is outside [500,599) and its message and
kind match nothing. -/
theorem c3_claim_counterexample :
    (isRetryableError (some eStatusMsg) = false ∧
      vocabMatchB eStatusMsg = true ∧
      kindNetworkB eStatusMsg = false ∧
      truthyStatus eStatusMsg = some 404) ∧
    (isRetryableError (some e599) = true ∧
      vocabMatchB e599 = false ∧
      kindNetworkB e599 = false ∧
      truthyStatus e599 = some 599) :=
  ⟨⟨rfl, rfl, rfl, rfl⟩, ⟨rfl, rfl, rfl, rfl⟩⟩

/-- C3 (amended): `isRetryableError` returns true exactly when the error kind
is network-level, or a truthy status code is present and equals 429 or 408
or lies in [500,599] (599 included), or no truthy status code is present and
the lowercased message contains a vocabulary substring. A status-bearing
error is classified by status alone. -/
theorem c3_retryable_characterization (e : JSError) :
    isRetryableError (some e) = true ↔
      (kindNetworkB e = true ∨
       (∃ s, truthyStatus e = some s ∧ (s = 429 ∨ s = 408 ∨ (500 ≤ s ∧ s ≤ 599))) ∨
       (truthyStatus e = none ∧ vocabMatchB e = true)) := by
  have hdef : isRetryableError (some e) =
      (if kindNetworkB e then true
       else
         match truthyStatus e with
         | some s => s == 429 || s == 408 || (decide (500 ≤ s) && decide (s < 600))
         | none => vocabMatchB e) := rfl
  rw [hdef]
  by_cases hk : kindNetworkB e = true
  · simp [hk]
  · rw [Bool.not_eq_true] at hk
    cases hs : truthyStatus e with
    | some s =>
      simp only [hk, Bool.false_eq_true, if_false, hs]
      constructor
      · intro h
        refine Or.inr (Or.inl ⟨s, rfl, ?_⟩)
        simp only [Bool.or_eq_true, beq_iff_eq, Bool.and_eq_true, decide_eq_true_eq] at h
        omega
      · rintro (hnet | ⟨s', hs', hcond⟩ | ⟨hnone, _⟩)
        · exact hnet.elim
        · injection hs' with h'
          subst h'
          simp only [Bool.or_eq_true, beq_iff_eq, Bool.and_eq_true, decide_eq_true_eq]
          omega
        · exact Option.noConfusion hnone
    | none =>
      simp only [hk, Bool.false_eq_true, if_false, hs]
      constructor
      · intro h
        exact Or.inr (Or.inr ⟨trivial, h⟩)
      · rintro (hnet | ⟨s', hs', _⟩ | ⟨_, hmsg⟩)
        · exact hnet.elim
        · exact Option.noConfusion hs'
        · exact hmsg

/-- C3 witness: a 503-status error is retryable by the characterization. -/
theorem c3_retryable_witness : isRetryableError (some e503) = true :=
  (c3_retryable_characterization e503).mpr
    (Or.inr (Or.inl ⟨503, rfl, Or.inr (Or.inr ⟨by omega, by omega⟩)⟩))

lemma pageBreak_calls (st : PDFState) : (pageBreak st).calls = st.calls := by
  unfold pageBreak
  split <;> rfl

lemma emitLine_calls (fs : Nat) (st : PDFState) (l : String) :
    (emitLine fs st l).calls = st.calls := by
  simp only [emitLine]
  exact pageBreak_calls st

lemma foldl_emitLine_calls (fs : Nat) :
    ∀ (ls : List String) (st : PDFState),
      (ls.foldl (emitLine fs) st).calls = st.calls := by
  intro ls
  induction ls with
  | nil => intro st; rfl
  | cons l ls ih => intro st; rw [List.foldl_cons, ih, emitLine_calls]

lemma addText_calls (split : Split) (t : String) (fs : Nat) (b : Bool) (st : PDFState) :
    (addText split t fs b st).calls
      = st.calls ++ [{ text := t, fontSize := fs, bold := b }] := by
  simp only [addText]
  rw [foldl_emitLine_calls]

lemma foldl_emitHighlightLine_calls :
    ∀ (ls : List String) (st : PDFState),
      (ls.foldl emitHighlightLine st).calls = st.calls := by
  intro ls
  induction ls with
  | nil => intro st; rfl
  | cons l ls ih => intro st; rw [List.foldl_cons, ih]; rfl

lemma addHighlight_calls (split : Split) (h : String) (st : PDFState) :
    (addHighlight split h st).calls = st.calls := by
  simp only [addHighlight]
  rw [foldl_emitHighlightLine_calls]

lemma foldl_addHighlight_calls (split : Split) :
    ∀ (hs : List String) (st : PDFState),
      (hs.foldl (fun st h => addHighlight split h st) st).calls = st.calls := by
  intro hs
  induction hs with
  | nil => intro st; rfl
  | cons h hs ih => intro st; rw [List.foldl_cons, ih, addHighlight_calls]

lemma anyKS_update_y (st : PDFState) (v : Nat) : anyKS { st with y := v } = anyKS st := rfl

lemma anyKS_addText (split : Split) (t : String) (fs : Nat) (b : Bool) (st : PDFState)
    (h : keySkillsCall { text := t, fontSize := fs, bold := b } = false) :
    anyKS (addText split t fs b st) = anyKS st := by
  unfold anyKS
  rw [addText_calls, List.any_append]
  simp [h]

lemma ks_fs_ne (t : String) (fs : Nat) (b : Bool) (h : (fs == 14) = false) :
    keySkillsCall { text := t, fontSize := fs, bold := b } = false := by
  simp [keySkillsCall, h]

lemma anyKS_addExperience (split : Split) (st : PDFState) (e : CVExperience) :
    anyKS (addExperience split st e) = anyKS st := by
  simp only [addExperience]
  rw [anyKS_update_y]
  unfold anyKS
  rw [foldl_addHighlight_calls, addText_calls, addText_calls]
  simp [keySkillsCall]

lemma anyKS_foldl_addExperience (split : Split) :
    ∀ (exps : List CVExperience) (st : PDFState),
      anyKS (exps.foldl (addExperience split) st) = anyKS st := by
  intro exps
  induction exps with
  | nil => intro st; rfl
  | cons e es ih => intro st; rw [List.foldl_cons, ih, anyKS_addExperience]

lemma anyKS_addEducation (split : Split) (st : PDFState) (e : CVEducation) :
    anyKS (addEducation split st e) = anyKS st := by
  simp only [addEducation]
  rw [anyKS_update_y]
  unfold anyKS
  rw [addText_calls, addText_calls]
  simp [keySkillsCall]

lemma anyKS_foldl_addEducation (split : Split) :
    ∀ (edus : List CVEducation) (st : PDFState),
      anyKS (edus.foldl (addEducation split) st) = anyKS st := by
  intro edus
  induction edus with
  | nil => intro st; rfl
  | cons e es ih => intro st; rw [List.foldl_cons, ih, anyKS_addEducation]

lemma anyKS_headerSec (split : Split) (cv : CVData) (st : PDFState) :
    anyKS (pdfHeaderSec split cv st) = anyKS st := by
  unfold pdfHeaderSec
  cases cv.header with
  | none => rfl
  | some h =>
    rw [anyKS_update_y, anyKS_addText, anyKS_addText]
    · exact ks_fs_ne _ _ _ rfl
    · exact ks_fs_ne _ _ _ rfl

lemma anyKS_summarySec (split : Split) (cv : CVData) (st : PDFState) :
    anyKS (pdfSummarySec split cv st) = anyKS st := by
  unfold pdfSummarySec
  split
  · split
    · rfl
    · rw [anyKS_update_y, anyKS_addText, anyKS_addText]
      · decide
      · exact ks_fs_ne _ _ _ rfl
  · rfl

lemma pdfSkillsSec_skip (split : Split) (cv : CVData) (st : PDFState)
    (h : cv.skills = none ∨ cv.skills = some []) :
    pdfSkillsSec split cv st = st := by
  rcases h with h | h <;> simp [pdfSkillsSec, h]

lemma anyKS_experienceSec (split : Split) (cv : CVData) (st : PDFState) :
    anyKS (pdfExperienceSec split cv st) = anyKS st := by
  unfold pdfExperienceSec
  split
  · split
    · rw [anyKS_foldl_addExperience, anyKS_addText]
      decide
    · rfl
  · rfl

lemma anyKS_educationSec (split : Split) (cv : CVData) (st : PDFState) :
    anyKS (pdfEducationSec split cv st) = anyKS st := by
  unfold pdfEducationSec
  split
  · split
    · rw [anyKS_foldl_addEducation, anyKS_addText]
      decide
    · rfl
  · rfl

lemma c8_pdf (split : Split) (cv : CVData)
    (h : cv.skills = none ∨ cv.skills = some []) :
    anyKS (generatePDF split cv) = false := by
  unfold generatePDF
  rw [anyKS_educationSec, anyKS_experienceSec, pdfSkillsSec_skip split cv _ h,
    anyKS_summarySec, anyKS_headerSec]
  rfl

lemma ksPar_not_heading (p : DocxParagraph) (h : p.heading1 = false) :
    ksPar p = false := by
  simp [ksPar, h]

lemma ksPar_docxExpPars (e : CVExperience) :
    ∀ p ∈ docxExpPars e, ksPar p = false := by
  intro p hp
  simp only [docxExpPars, List.mem_cons, List.mem_append, List.mem_map,
    List.mem_singleton] at hp
  rcases hp with (rfl | rfl | ⟨a, _, rfl⟩) | (rfl | hemp)
  · rfl
  · rfl
  · rfl
  · rfl
  · exact absurd hemp (List.not_mem_nil p)

lemma ksPar_docxEduPars (e : CVEducation) :
    ∀ p ∈ docxEduPars e, ksPar p = false := by
  intro p hp
  simp only [docxEduPars, List.mem_cons, List.mem_singleton] at hp
  rcases hp with rfl | rfl | h
  · rfl
  · rfl
  · exact absurd h (List.not_mem_nil p)

lemma c8_docx (cv : CVData) (h : cv.skills = none ∨ cv.skills = some []) :
    (generateDOCX cv).any ksPar = false := by
  rw [List.any_eq_false]
  intro p hp
  unfold generateDOCX at hp
  have hsk : docxSkillsPars cv.skills = [] := by
    rcases h with h | h <;> simp [docxSkillsPars, h]
  rw [hsk] at hp
  simp only [List.mem_append, List.append_nil] at hp
  rcases hp with ((hph | hps) | hpe) | hpE
  · -- header paragraphs: never headings
    cases hh : cv.header with
    | none => rw [hh] at hph; exact absurd hph (List.not_mem_nil p)
    | some hd =>
      rw [hh] at hph
      simp only [docxHeaderPars, List.mem_cons, List.mem_singleton] at hph
      rcases hph with rfl | rfl | hemp
      · simp [ksPar]
      · simp [ksPar]
      · exact absurd hemp (List.not_mem_nil p)
  · -- summary paragraphs
    cases hh : cv.summary with
    | none => rw [hh] at hps; exact absurd hps (List.not_mem_nil p)
    | some s =>
      rw [hh] at hps
      simp only [docxSummaryPars] at hps
      by_cases hse : s = ""
      · rw [if_pos hse] at hps; exact absurd hps (List.not_mem_nil p)
      · rw [if_neg hse] at hps
        simp only [List.mem_cons, List.mem_singleton] at hps
        rcases hps with rfl | rfl | hemp
        · simp [ksPar, headingPar]
        · simp [ksPar]
        · exact absurd hemp (List.not_mem_nil p)
  · -- experience paragraphs
    cases hh : cv.experience with
    | none => rw [hh] at hpe; exact absurd hpe (List.not_mem_nil p)
    | some exps =>
      rw [hh] at hpe
      simp only [docxExperiencePars] at hpe
      by_cases hne : 0 < exps.length
      · rw [if_pos hne] at hpe
        simp only [List.mem_cons] at hpe
        rcases hpe with rfl | hmem
        · simp [ksPar, headingPar]
        · rw [List.mem_flatten] at hmem
          obtain ⟨l, hl, hpl⟩ := hmem
          rw [List.mem_map] at hl
          obtain ⟨e, _, rfl⟩ := hl
          simp [ksPar_docxExpPars e p hpl]
      · rw [if_neg hne] at hpe; exact absurd hpe (List.not_mem_nil p)
  · -- education paragraphs
    cases hh : cv.education with
    | none => rw [hh] at hpE; exact absurd hpE (List.not_mem_nil p)
    | some edus =>
      rw [hh] at hpE
      simp only [docxEducationPars] at hpE
      by_cases hne : 0 < edus.length
      · rw [if_pos hne] at hpE
        simp only [List.mem_cons] at hpE
        rcases hpE with rfl | hmem
        · simp [ksPar, headingPar]
        · rw [List.mem_flatten] at hmem
          obtain ⟨l, hl, hpl⟩ := hmem
          rw [List.mem_map] at hl
          obtain ⟨e, _, rfl⟩ := hl
          simp [ksPar_docxEduPars e p hpl]
      · rw [if_neg hne] at hpE; exact absurd hpE (List.not_mem_nil p)

/-- C8: for a resume whose skills field is absent or the empty sequence,
neither the PDF output (no `addText` call with the "KEY SKILLS" heading) nor
the DOCX output (no HEADING_1 paragraph with a "KEY SKILLS" run) contains
the skills heading. -/
theorem c8_skills_omitted (split : Split) (cv : CVData)
    (h : cv.skills = none ∨ cv.skills = some []) :
    anyKS (generatePDF split cv) = false ∧
    (generateDOCX cv).any ksPar = false :=
  ⟨c8_pdf split cv h, c8_docx cv h⟩

theorem c8_skills_omitted_witness :
    (cvEmptySkills.skills = none ∨ cvEmptySkills.skills = some []) ∧
    (anyKS (generatePDF splitWhole cvEmptySkills) = false ∧
      (generateDOCX cvEmptySkills).any ksPar = false) :=
  ⟨Or.inr rfl, c8_skills_omitted splitWhole cvEmptySkills (Or.inr rfl)⟩

lemma wf_pdf (f : File) : wfResult (extractTextFromPDF f) := by
  unfold wfResult extractTextFromPDF
  cases f.pdfPages with
  | ok p => exact Or.inl rfl
  | error t => exact Or.inr ⟨rfl, by simp⟩

lemma wf_docx (f : File) : wfResult (extractTextFromDOCX f) := by
  unfold wfResult extractTextFromDOCX
  cases f.docxRaw with
  | ok v => exact Or.inl rfl
  | error t => exact Or.inr ⟨rfl, by simp⟩

lemma wf_txt (f : File) : wfResult (extractTextFromTXT f) := by
  unfold wfResult extractTextFromTXT
  cases f.txtRaw with
  | ok v => exact Or.inl rfl
  | error t => exact Or.inr ⟨rfl, by simp⟩

/-- C9 counterexample: a PDF upload whose decoder throws an `Error` with an
empty message yields `{ text := "", error := some "" }` — the error field is
set but its message is empty, not nonempty. -/
theorem c9_claim_counterexample :
    extractTextFromPDF fEmptyMsg = { text := "", error := some "" } ∧
    extractTextFromFile fEmptyMsg = { text := "", error := some "" } :=
  ⟨rfl, rfl⟩

/-- C9 (amended): every extractor returns a ParseResult (never throws); every
decode failure maps to text = "" with the error field set to the thrown
Error's message — possibly empty — or to a nonempty format default when the
thrown value is not an Error; an unsupported type maps to the fixed nonempty
unsupported-type message. -/
theorem c9_extractors_shape (f : File) :
    (wfResult (extractTextFromPDF f) ∧ wfResult (extractTextFromDOCX f) ∧
      wfResult (extractTextFromTXT f) ∧ wfResult (extractTextFromFile f)) ∧
    (∀ t, f.pdfPages = Except.error t →
      extractTextFromPDF f = { text := "", error := some (thrownMsg t "Failed to parse PDF") }) ∧
    (∀ t, f.docxRaw = Except.error t →
      extractTextFromDOCX f = { text := "", error := some (thrownMsg t "Failed to parse DOCX") }) ∧
    (∀ t, f.txtRaw = Except.error t →
      extractTextFromTXT f = { text := "", error := some (thrownMsg t "Failed to parse TXT") }) ∧
    (pdfCond f = false → docxCond f = false → txtCond f = false →
      extractTextFromFile f =
        { text := "", error := some "Unsupported file type. Please upload PDF, DOCX, or TXT." }) ∧
    (∀ m, m ≠ "" → thrownMsg (JSThrown.err m) "Failed to parse PDF" = m ∧ m ≠ "") ∧
    (∀ dflt, thrownMsg JSThrown.other dflt = dflt) := by
  refine ⟨⟨wf_pdf f, wf_docx f, wf_txt f, ?_⟩, ?_, ?_, ?_, ?_, ?_, ?_⟩
  · unfold extractTextFromFile
    by_cases h1 : pdfCond f
    · simpa [h1] using wf_pdf f
    · by_cases h2 : docxCond f
      · simpa [h1, h2] using wf_docx f
      · by_cases h3 : txtCond f
        · simpa [h1, h2, h3] using wf_txt f
        · simp only [h1, h2, h3, Bool.false_eq_true, if_false]
          exact Or.inr ⟨rfl, by simp⟩
  · intro t ht
    unfold extractTextFromPDF
    rw [ht]
  · intro t ht
    unfold extractTextFromDOCX
    rw [ht]
  · intro t ht
    unfold extractTextFromTXT
    rw [ht]
  · intro h1 h2 h3
    unfold extractTextFromFile
    simp only [h1, h2, h3, Bool.false_eq_true, if_false]
  · intro m hm
    exact ⟨rfl, hm⟩
  · intro dflt
    rfl

theorem c9_extractors_shape_witness :
    extractTextFromPDF fUnsupported = { text := "", error := some "bad xref" } ∧
    extractTextFromFile fUnsupported =
      { text := "", error := some "Unsupported file type. Please upload PDF, DOCX, or TXT." } :=
  ⟨(c9_extractors_shape fUnsupported).2.1 (JSThrown.err "bad xref") rfl,
   (c9_extractors_shape fUnsupported).2.2.2.2.1 rfl rfl rfl⟩

/-- C10: the stored match_score is `parsedCV.matchScore || null`: a missing
or falsy matchScore (in particular 0) is stored as null, a truthy matchScore
is stored as itself; the row also stores the record and the "modern"
template. -/
theorem c10_match_score_falsy_null (u jd jr : String) (cv : JValue) :
    (jGet cv "matchScore" = none → (insertRow u jd jr cv).match_score = JValue.null) ∧
    (∀ v, jGet cv "matchScore" = some v → jsTruthy (some v) = false →
      (insertRow u jd jr cv).match_score = JValue.null) ∧
    (∀ v, jGet cv "matchScore" = some v → jsTruthy (some v) = true →
      (insertRow u jd jr cv).match_score = v) ∧
    (jGet cv "matchScore" = some (JValue.num 0) →
      (insertRow u jd jr cv).match_score = JValue.null) ∧
    ((insertRow u jd jr cv).optimized_content = cv ∧
      (insertRow u jd jr cv).template_name = "modern") := by
  refine ⟨?_, ?_, ?_, ?_, rfl, rfl⟩
  · intro h
    show storedMatchScore cv = JValue.null
    unfold storedMatchScore
    rw [h]
  · intro v hv ht
    show storedMatchScore cv = JValue.null
    unfold storedMatchScore
    rw [hv]
    simp [ht]
  · intro v hv ht
    show storedMatchScore cv = v
    unfold storedMatchScore
    rw [hv]
    simp [ht]
  · intro h
    show storedMatchScore cv = JValue.null
    unfold storedMatchScore
    rw [h]
    rfl

theorem c10_match_score_falsy_null_witness :
    (insertRow "u1" "desc" "role" cvScore0).match_score = JValue.null ∧
    (insertRow "u1" "desc" "role" cvScore85).match_score = JValue.num 85 ∧
    (insertRow "u1" "desc" "role" cvNoScore).match_score = JValue.null :=
  ⟨(c10_match_score_falsy_null "u1" "desc" "role" cvScore0).2.2.2.1 rfl,
   (c10_match_score_falsy_null "u1" "desc" "role" cvScore85).2.2.1 (JValue.num 85) rfl rfl,
   (c10_match_score_falsy_null "u1" "desc" "role" cvNoScore).1 rfl⟩
